import Mathlib

/-!
Verification of the microkinetics-motionet protocol core against its
natural-language specification.

The development shallowly embeds the Python sources:
  - src/microkinetics_motionet/core/var_convert.py  (add_address, add_uint8)
  - src/microkinetics_motionet/core/frame.py        (Frame: send_frame,
    _decode_frame, _decode_echo, _decode_data, _calc_checksum; the packet
    dataclasses; the ReturnCode enumeration)
  - src/microkinetics_motionet/core/query_set.py    (QuerySet: local_query,
    local_set, query, set, the is_ready flag)

Bytes are natural numbers; byte streams are lists of naturals (Python bytes
objects index-checked exactly as Python does: an out-of-range index raises,
a slice clamps).  Fallible Python code is embedded with Except; the distinct
Python exception classes that the transaction layer dispatches on are
distinguished by error variants.
-/

namespace Motionet

/-- Errors raised while decoding a received stream, mirroring the Python
exceptions: IndexError from an out-of-range byte access, ValueError from
an unrecognized ReturnCode value, and the plain Exceptions raised on echo
and data checksum mismatch (carrying calculated and actual values). -/
inductive DecodeError where
  | indexError : DecodeError
  | unknownReturnCode (raw : Nat) : DecodeError
  | echoChecksum (calculated actual : Nat) : DecodeError
  | dataChecksum (calculated actual : Nat) : DecodeError
deriving DecidableEq, Repr

/-- EchoPacket from frame.py: address, command and return code decoded from
the first five received bytes.  The Python field return_code holds a
ReturnCode enum member; we keep its raw numeric value (always one of the
known codes when decoding succeeded). -/
structure EchoPacket where
  address : Nat
  command : Nat
  return_code : Nat
deriving DecidableEq, Repr

/-- DataPacket from frame.py: address, command and the payload bytes of the
data section. -/
structure DataPacket where
  address : Nat
  command : Nat
  payload : List Nat
deriving DecidableEq, Repr

/-- RxPacket from frame.py: optional echo and data sections.  Both start as
None and are both assigned by a successful decode. -/
structure RxPacket where
  echo_packet : Option EchoPacket
  data_packet : Option DataPacket
deriving DecidableEq, Repr

/-- The numeric values of the ReturnCode enumeration in frame.py.
ReturnCode(v) in Python succeeds exactly when v is one of these; any other
value raises ValueError. -/
def known_return_codes : List Nat :=
  [3, 4, 5, 7, 8, 12, 14, 15, 16, 17, 20, 22, 29, 32]

/-- Frame._calc_checksum: sum every byte of the frame with arbitrary
precision, then AND with 0x7F to clear the high bit. -/
def calc_checksum (frame : List Nat) : Nat :=
  (frame.foldl (fun checksum byte => checksum + byte) 0) &&& 0x7F

/-- VarConvert.add_address: append the address byte with its high bit
forced to 1. -/
def add_address (stream : List Nat) (value : Nat) : List Nat :=
  stream ++ [value ||| 0x80]

/-- VarConvert.add_uint8: append one byte to the stream. -/
def add_uint8 (stream : List Nat) (value : Nat) : List Nat :=
  stream ++ [value]

/-- Frame.send_frame, as the wire bytes it hands to the physical interface:
address byte (high bit set), the ASCII codes of the payload, the address
byte again, then the checksum over everything so far.  The payload is the
list of ASCII codes of the Python payload string. -/
def send_frame (address : Nat) (payload : List Nat) : List Nat :=
  let s1 := add_address [] address
  let s2 := s1 ++ payload
  let s3 := add_address s2 address
  let tx_checksum := calc_checksum s3
  add_uint8 s3 tx_checksum

/-- Python byte indexing rx_stream[i]: the byte, or IndexError when i is
out of range. -/
def idx (rx_stream : List Nat) (i : Nat) : Except DecodeError Nat :=
  match rx_stream[i]? with
  | some b => Except.ok b
  | none => Except.error DecodeError.indexError

/-- Python slice rx_stream[a:b] (clamping, never raising). -/
def pySlice (rx_stream : List Nat) (a b : Nat) : List Nat :=
  (rx_stream.drop a).take (b - a)

/-- Frame._decode_echo: byte0=address, byte1=command, byte2 must be a known
ReturnCode value (else ValueError), then the checksum over bytes [0:4] is
compared with byte4; on mismatch an exception carrying both values is
raised. -/
def decode_echo (rx_stream : List Nat) : Except DecodeError EchoPacket := do
  let address ← idx rx_stream 0
  let command ← idx rx_stream 1
  let raw ← idx rx_stream 2
  let return_code ←
    if raw ∈ known_return_codes then Except.ok raw
    else Except.error (DecodeError.unknownReturnCode raw)
  let echo_checksum := calc_checksum (pySlice rx_stream 0 4)
  let actual ← idx rx_stream 4
  if echo_checksum ≠ actual then
    Except.error (DecodeError.echoChecksum echo_checksum actual)
  else
    Except.ok { address := address, command := command, return_code := return_code }

/-- The scan loop of Frame._decode_data, on the bytes from offset 7 on:
position of the first byte equal to the data address, or none when the
loop runs off the end of the buffer (where Python raises IndexError). -/
def scan_for_addr (address : Nat) : List Nat → Option Nat
  | [] => none
  | byte :: rest =>
      if byte = address then some 0
      else (scan_for_addr address rest).map (· + 1)

/-- Frame._decode_data: byte5=address, byte6=command, then scan from offset
7 for the first byte equal to the address (index i); payload is bytes[7:i],
and the checksum over bytes[5:i+1] is compared with byte i+1.  Running the
scan off the end of the buffer, or reading a missing byte, raises
IndexError. -/
def decode_data (rx_stream : List Nat) : Except DecodeError DataPacket := do
  let address ← idx rx_stream 5
  let command ← idx rx_stream 6
  match scan_for_addr address (rx_stream.drop 7) with
  | none => Except.error DecodeError.indexError
  | some k =>
    let i := 7 + k
    let payload := pySlice rx_stream 7 i
    let data_checksum := calc_checksum (pySlice rx_stream 5 (i + 1))
    let actual ← idx rx_stream (i + 1)
    if data_checksum ≠ actual then
      Except.error (DecodeError.dataChecksum data_checksum actual)
    else
      Except.ok { address := address, command := command, payload := payload }

/-- Frame._decode_frame: decode the echo section, then always also decode
the data section (there is no length guard), and fill both fields of the
RxPacket. -/
def decode_frame (rx_stream : List Nat) : Except DecodeError RxPacket := do
  let echo_frame ← decode_echo rx_stream
  let data_frame ← decode_data rx_stream
  Except.ok { echo_packet := some echo_frame, data_packet := some data_frame }

/-! ## Transaction layer (query_set.py)

One attempt of the loop bodies of QuerySet.local_query / local_set does
send_frame followed by receive_frame_or_timeout.  The physical channel is
abstracted as a function from the attempt number to what that attempt's
receive yields: either a ResponseTimeout or a completed byte accumulation
(from which receive_frame_or_timeout runs the decoder). -/

/-- What one send/receive attempt observes on the channel. -/
inductive ChanStep where
  | timeout : ChanStep
  | deliver (rx_stream : List Nat) : ChanStep

/-- The exceptions QuerySet.local_query / local_set can raise, by Python
class: GeneralException for exhausted timeouts, GeneralException wrapping a
decode exception, ServerException, the GeneralException of the
wrong-address checks after the loops, the AttributeError that the
post-loop check of local_query would raise (rx_frame.echo_packet is still
None there), and the final GeneralException for an unknown error. -/
inductive QueryError where
  | timeoutExhausted : QueryError
  | general (e : DecodeError) : QueryError
  | serverError : QueryError
  | wrongAddress (received expected : Nat) : QueryError
  | attributeError : QueryError
  | unknown : QueryError
deriving DecidableEq, Repr

/-- Whether an error is a ServerException (the only class the query/set
wrappers re-raise without touching is_ready).  No code path of the
repository ever raises it: the decoder raises only the DecodeError
exceptions, which local_query wraps in GeneralException. -/
def isServerError : QueryError → Bool
  | QueryError.serverError => true
  | _ => false

/-- The while loop of QuerySet.local_query, by remaining trials.  attempt
counts the send_frame calls already performed; every loop iteration sends
once more.  A successful receive+decode returns the packet at once (so the
address check after the loop is unreachable on success); ResponseTimeout
is swallowed while trials remain and becomes GeneralException on the last
trial; every other exception (all the decode errors) aborts immediately as
a GeneralException.  Falling out of the loop (trials exhausted without a
return or raise, which the control flow never actually does from 3 trials)
reaches line 179, where rx_frame.echo_packet is still None and reading
.address off it raises AttributeError. -/
def local_query_go (chan : Nat → ChanStep) (txAddress : Nat) (attempt : Nat) :
    Nat → Except QueryError RxPacket × Nat
  | 0 => (Except.error QueryError.attributeError, attempt)
  | trials + 1 =>
      match chan attempt with
      | ChanStep.timeout =>
          if trials = 0 then (Except.error QueryError.timeoutExhausted, attempt + 1)
          else local_query_go chan txAddress (attempt + 1) trials
      | ChanStep.deliver rx_stream =>
          match decode_frame rx_stream with
          | Except.ok rx_frame => (Except.ok rx_frame, attempt + 1)
          | Except.error e => (Except.error (QueryError.general e), attempt + 1)

/-- QuerySet.local_query: run the loop with trials_left = 3.  The second
component is the number of send attempts performed. -/
def local_query (chan : Nat → ChanStep) (txAddress : Nat) :
    Except QueryError RxPacket × Nat :=
  local_query_go chan txAddress 0 3

/-- The while loop of QuerySet.local_set.  Identical control flow to
local_query; the dead code after the loop differs: rx_frame there is the
initial TxPacket(), whose address defaults to 1, so line 221 compares 1
with the request address and raises the wrong-address GeneralException on
mismatch, else the unknown-error GeneralException. -/
def local_set_go (chan : Nat → ChanStep) (txAddress : Nat) (attempt : Nat) :
    Nat → Except QueryError RxPacket × Nat
  | 0 =>
      if 1 ≠ txAddress then
        (Except.error (QueryError.wrongAddress 1 txAddress), attempt)
      else (Except.error QueryError.unknown, attempt)
  | trials + 1 =>
      match chan attempt with
      | ChanStep.timeout =>
          if trials = 0 then (Except.error QueryError.timeoutExhausted, attempt + 1)
          else local_set_go chan txAddress (attempt + 1) trials
      | ChanStep.deliver rx_stream =>
          match decode_frame rx_stream with
          | Except.ok rx_frame => (Except.ok rx_frame, attempt + 1)
          | Except.error e => (Except.error (QueryError.general e), attempt + 1)

/-- QuerySet.local_set: run the loop with trials_left = 3. -/
def local_set (chan : Nat → ChanStep) (txAddress : Nat) :
    Except QueryError RxPacket × Nat :=
  local_set_go chan txAddress 0 3

/-- The state QuerySet.__init__ owns that the claims are about: the
is_ready flag, set to False at construction. -/
structure QuerySet where
  is_ready : Bool
deriving DecidableEq, Repr

/-- QuerySet.__init__ sets is_ready to False. -/
def QuerySet.init : QuerySet :=
  { is_ready := false }

/-- QuerySet.query: check_if_connected always returns True, then
local_query runs; a ServerException is re-raised untouched, any other
GeneralException first sets is_ready to False and is then re-raised; a
success leaves the state alone. -/
def QuerySet.query (s : QuerySet) (chan : Nat → ChanStep) (txAddress : Nat) :
    QuerySet × Except QueryError RxPacket :=
  match (local_query chan txAddress).1 with
  | Except.ok rx_frame => (s, Except.ok rx_frame)
  | Except.error e =>
      if isServerError e then (s, Except.error e)
      else ({ s with is_ready := false }, Except.error e)

/-- QuerySet.set: same wrapper shape as QuerySet.query, around
local_set. -/
def QuerySet.set (s : QuerySet) (chan : Nat → ChanStep) (txAddress : Nat) :
    QuerySet × Except QueryError RxPacket :=
  match (local_set chan txAddress).1 with
  | Except.ok rx_frame => (s, Except.ok rx_frame)
  | Except.error e =>
      if isServerError e then (s, Except.error e)
      else ({ s with is_ready := false }, Except.error e)

/-- One call into the transaction layer, for stating reachability of
QuerySet states through its own operations. -/
inductive Op where
  | opQuery (chan : Nat → ChanStep) (txAddress : Nat) : Op
  | opSet (chan : Nat → ChanStep) (txAddress : Nat) : Op

/-- Run a sequence of query/set calls from a starting state, keeping only
the evolving QuerySet state. -/
def runOps (s : QuerySet) : List Op → QuerySet
  | [] => s
  | op :: rest =>
      match op with
      | Op.opQuery chan a => runOps (QuerySet.query s chan a).1 rest
      | Op.opSet chan a => runOps (QuerySet.set s chan a).1 rest

/-! ## Concrete frames used as evidence

An MN100-style response with address byte 0x81 = 129 (logical address 1
with the high bit set), command byte 71, return code, reserved byte 0:
echo checksum is the 7-bit sum of the first four bytes; the data section
repeats address 129, command 71, payload bytes 48, 49, the terminating
address byte 129, and the 7-bit sum of bytes 5..9. -/

/-- A fully valid response frame: echo return code 5 (COMMAND_FINISHED),
echo checksum (129+71+5+0) AND 0x7F = 77, data checksum
(129+71+48+49+129) AND 0x7F = 42. -/
def validFrame : List Nat := [129, 71, 5, 0, 77, 129, 71, 48, 49, 129, 42]

/-- A checksum-valid response frame whose echo return code is 7
(SLAVE_CHECKSUM_ERROR, a server-reported error condition); echo checksum
(129+71+7+0) AND 0x7F = 79. -/
def serverErrFrame : List Nat := [129, 71, 7, 0, 79, 129, 71, 48, 49, 129, 42]

/-- validFrame with its echo checksum byte corrupted (78 instead of 77). -/
def badChecksumFrame : List Nat := [129, 71, 5, 0, 78, 129, 71, 48, 49, 129, 42]

/-- A five-byte stream that is exactly a valid echo section with nothing
after it. -/
def echoOnlyFrame : List Nat := [129, 71, 5, 0, 77]

/-- A stream with a valid echo section and the start of a data section
whose bytes from offset 7 on never repeat the data address 129. -/
def noTerminatorFrame : List Nat := [129, 71, 5, 0, 77, 129, 71, 48, 49]

/-! ## Helper lemmas -/

/-- Monadic bind on Except propagates a success into the continuation. -/
@[simp] theorem except_bind_ok {ε α β : Type} (a : α) (f : α → Except ε β) :
    (Except.ok a >>= f) = f a := rfl

/-- Monadic bind on Except propagates an error past the continuation. -/
@[simp] theorem except_bind_error {ε α β : Type} (e : ε) (f : α → Except ε β) :
    ((Except.error e : Except ε α) >>= f) = Except.error e := rfl

/-- Folding addition from the left over a list is the starting value plus
the list's sum. -/
theorem foldl_add_eq_sum (l : List Nat) :
    ∀ n : Nat, l.foldl (fun checksum byte => checksum + byte) n = n + l.sum := by
  induction l with
  | nil => intro n; simp
  | cons b rest ih => intro n; simp only [List.foldl_cons, ih, List.sum_cons]; omega

/-- If no position of the list holds the address byte, the decode-data
scan exhausts the list. -/
theorem scan_for_addr_eq_none (address : Nat) (l : List Nat)
    (h : ∀ k : Nat, l[k]? ≠ some address) : scan_for_addr address l = none := by
  induction l with
  | nil => rfl
  | cons b rest ih =>
      have hb : b ≠ address := by
        intro hba
        exact h 0 (by simp [hba])
      simp only [scan_for_addr, if_neg hb]
      have : scan_for_addr address rest = none := by
        apply ih
        intro k
        have := h (k + 1)
        simpa using this
      simp [this]

/-- The decode-data scan finds the first occurrence of the address byte. -/
theorem scan_for_addr_eq_some (address : Nat) (l : List Nat) (k : Nat)
    (hk : l[k]? = some address) (hfirst : ∀ m, m < k → l[m]? ≠ some address) :
    scan_for_addr address l = some k := by
  induction l generalizing k with
  | nil => simp at hk
  | cons b rest ih =>
      cases k with
      | zero =>
          simp only [List.getElem?_cons_zero, Option.some.injEq] at hk
          simp [scan_for_addr, hk]
      | succ k =>
          have hb : b ≠ address := by
            intro hba
            exact hfirst 0 (Nat.succ_pos k) (by simp [hba])
          simp only [List.getElem?_cons_succ] at hk
          have hrest : scan_for_addr address rest = some k := by
            apply ih k hk
            intro m hm
            have := hfirst (m + 1) (by omega)
            simpa using this
          simp [scan_for_addr, if_neg hb, hrest]

/-- QuerySet.query never turns is_ready on. -/
theorem query_keeps_is_ready_off (s : QuerySet) (chan : Nat → ChanStep)
    (txAddress : Nat) (h : s.is_ready = false) :
    ((QuerySet.query s chan txAddress).1).is_ready = false := by
  unfold QuerySet.query
  cases (local_query chan txAddress).1 with
  | ok rx_frame => simpa using h
  | error e =>
      by_cases hs : isServerError e = true
      · simp [hs, h]
      · simp only [Bool.not_eq_true] at hs
        simp [hs]

/-- QuerySet.set never turns is_ready on. -/
theorem set_keeps_is_ready_off (s : QuerySet) (chan : Nat → ChanStep)
    (txAddress : Nat) (h : s.is_ready = false) :
    ((QuerySet.set s chan txAddress).1).is_ready = false := by
  unfold QuerySet.set
  cases (local_set chan txAddress).1 with
  | ok rx_frame => simpa using h
  | error e =>
      by_cases hs : isServerError e = true
      · simp [hs, h]
      · simp only [Bool.not_eq_true] at hs
        simp [hs]

/-! ## Claims -/

/-- Claim C1 (code_bug evidence).  The claim says a checksum-valid response
whose echo-section address differs from the request's address makes query
fail immediately with an address-mismatch error and never return the
response as a success.  The code does the opposite: the address check of
local_query sits after the retry loop and a successful decode returns from
inside the loop, so with request address 1 and a channel delivering on the
first attempt a valid frame whose echo address is 129, local_query returns
that frame as a success after one send and raises no wrong-address
error. -/
theorem c1_mismatched_address_frame_returned_as_success :
    local_query (fun _ => ChanStep.deliver validFrame) 1 =
      (Except.ok
        { echo_packet := some { address := 129, command := 71, return_code := 5 },
          data_packet := some { address := 129, command := 71, payload := [48, 49] } },
        1) ∧ (129 : Nat) ≠ 1 := by
  exact ⟨rfl, by decide⟩

/-- Claim C2 (code_bug evidence).  The claim says a valid frame whose echo
status is a server-side error code makes query fail immediately with a
server-error classification.  The code never raises ServerException
anywhere: a checksum-valid frame with return code 7 (SLAVE_CHECKSUM_ERROR)
decodes successfully and local_query returns it as a success after one
attempt. -/
theorem c2_server_error_status_returned_as_success :
    local_query (fun _ => ChanStep.deliver serverErrFrame) 1 =
      (Except.ok
        { echo_packet := some { address := 129, command := 71, return_code := 7 },
          data_packet := some { address := 129, command := 71, payload := [48, 49] } },
        1) ∧ (7 : Nat) ∈ known_return_codes := by
  exact ⟨rfl, by decide⟩

/-- Claim C3 (code_bug evidence).  The claim says a decode failure on a
completed byte accumulation is retried exactly like a timeout, up to the
attempt budget.  The code retries only ResponseTimeout: every decode
exception falls into the generic handler and aborts local_query at once.
With a channel that delivers a checksum-corrupted frame on the first
attempt and a fully valid frame on every later attempt, local_query fails
with the wrapped checksum error after exactly one send, never consuming
the remaining trials. -/
theorem c3_decode_failure_aborts_without_retry :
    local_query
      (fun n => match n with
        | 0 => ChanStep.deliver badChecksumFrame
        | _ => ChanStep.deliver validFrame) 1 =
      (Except.error (QueryError.general (DecodeError.echoChecksum 77 78)), 1) := by
  rfl

/-- Claim C4.  local_query makes at most 3 send attempts: when the channel
times out on the first two attempts and delivers a decodable frame on the
third, the query succeeds with exactly 3 sends; when every attempt times
out, it fails with the exhausted-timeout error after exactly 3 sends. -/
theorem c4_retry_budget_three_attempts (chan : Nat → ChanStep)
    (rx_stream : List Nat) (rx_frame : RxPacket) (txAddress : Nat)
    (h0 : chan 0 = ChanStep.timeout) (h1 : chan 1 = ChanStep.timeout)
    (h2 : chan 2 = ChanStep.deliver rx_stream)
    (hdec : decode_frame rx_stream = Except.ok rx_frame)
    (chanT : Nat → ChanStep) (hT : ∀ n, chanT n = ChanStep.timeout) :
    local_query chan txAddress = (Except.ok rx_frame, 3) ∧
    local_query chanT txAddress = (Except.error QueryError.timeoutExhausted, 3) := by
  constructor
  · simp [local_query, local_query_go, h0, h1, h2, hdec]
  · simp [local_query, local_query_go, hT 0, hT 1, hT 2]

/-- Witness for C4 at a concrete channel and frame. -/
theorem c4_retry_budget_three_attempts_witness :
    local_query
      (fun n => match n with
        | 0 => ChanStep.timeout
        | 1 => ChanStep.timeout
        | _ => ChanStep.deliver validFrame) 1 =
      (Except.ok
        { echo_packet := some { address := 129, command := 71, return_code := 5 },
          data_packet := some { address := 129, command := 71, payload := [48, 49] } },
        3) ∧
    local_query (fun _ => ChanStep.timeout) 1 =
      (Except.error QueryError.timeoutExhausted, 3) :=
  c4_retry_budget_three_attempts _ validFrame _ 1 rfl rfl rfl rfl
    (fun _ => ChanStep.timeout) (fun _ => rfl)

/-- Claim C7.  The checksum is the arbitrary-precision sum of the protected
bytes masked to the low 7 bits, so it is below 128 and its high bit
(bit 7) is never set. -/
theorem c7_checksum_is_low7_of_sum (frame : List Nat) :
    calc_checksum frame = frame.sum &&& 0x7F ∧
    calc_checksum frame ≤ 127 ∧
    (calc_checksum frame).testBit 7 = false := by
  have hsum : calc_checksum frame = frame.sum &&& 0x7F := by
    unfold calc_checksum
    rw [foldl_add_eq_sum frame 0, Nat.zero_add]
  have hle : calc_checksum frame ≤ 127 := by
    unfold calc_checksum
    exact Nat.and_le_right
  refine ⟨hsum, hle, ?_⟩
  exact Nat.testBit_lt_two_pow (by omega)

/-- Claim C8.  Encoding a request with address a and payload p yields
exactly: the address byte a OR 0x80, the payload bytes verbatim, the
address byte again, then one checksum byte over all preceding bytes; it is
a total function of the request, so it never fails for ASCII payloads. -/
theorem c8_encode_layout (address : Nat) (payload : List Nat) :
    send_frame address payload =
      (address ||| 0x80) :: payload ++
        [address ||| 0x80,
         calc_checksum ((address ||| 0x80) :: payload ++ [address ||| 0x80])] := by
  simp [send_frame, add_address, add_uint8]

/-- Claim C5, counterexample.  The claim says a 5-byte stream that is a
valid, checksum-correct echo section with nothing after it decodes
successfully with an absent data section.  On the code, decoding such a
stream fails: the data-section read at offset 5 is attempted
unconditionally and raises IndexError. -/
theorem c5_counterexample_echo_only_stream_fails :
    echoOnlyFrame.length = 5 ∧
    decode_echo echoOnlyFrame =
      Except.ok { address := 129, command := 71, return_code := 5 } ∧
    decode_frame echoOnlyFrame = Except.error DecodeError.indexError := by
  exact ⟨rfl, rfl, rfl⟩

/-- Claim C5, amended.  The codec attempts the data section
unconditionally, so for every stream of at most 5 bytes whose echo section
decodes successfully, the full decode fails with an index error (the read
at offset 5 is out of range) instead of succeeding with an absent data
section. -/
theorem c5_short_stream_decode_fails (rx_stream : List Nat)
    (hlen : rx_stream.length ≤ 5) (echo_frame : EchoPacket)
    (hecho : decode_echo rx_stream = Except.ok echo_frame) :
    decode_frame rx_stream = Except.error DecodeError.indexError := by
  have h5 : rx_stream[5]? = none := List.getElem?_eq_none hlen
  simp [decode_frame, hecho, decode_data, idx, h5]

/-- Witness for C5's amended theorem at the concrete echo-only stream. -/
theorem c5_short_stream_decode_fails_witness :
    decode_frame echoOnlyFrame = Except.error DecodeError.indexError :=
  c5_short_stream_decode_fails echoOnlyFrame (by decide)
    { address := 129, command := 71, return_code := 5 } rfl

/-- Claim C6.  When the received stream has a data-section address byte at
offset 5 but no byte from offset 7 onward equals it, the terminator scan
exhausts the buffer and decoding the data section fails with an error (the
embedding reads bytes only through a checked index, so no out-of-range
read occurs: the failed check itself is the IndexError Python raises). -/
theorem c6_scan_exhaustion_fails (rx_stream : List Nat) (address : Nat)
    (ha : rx_stream[5]? = some address)
    (hnone : ∀ j : Nat, j < rx_stream.length → 7 ≤ j → rx_stream[j]? ≠ some address) :
    decode_data rx_stream = Except.error DecodeError.indexError := by
  have hnone' : ∀ j : Nat, 7 ≤ j → rx_stream[j]? ≠ some address := by
    intro j hj
    by_cases hlt : j < rx_stream.length
    · exact hnone j hlt hj
    · rw [List.getElem?_eq_none (by omega)]
      intro hcontra
      exact Option.noConfusion hcontra
  have hscan : scan_for_addr address (rx_stream.drop 7) = none := by
    apply scan_for_addr_eq_none
    intro k
    rw [List.getElem?_drop]
    exact hnone' (7 + k) (by omega)
  match hc : rx_stream[6]? with
  | none => simp [decode_data, idx, ha, hc]
  | some command => simp [decode_data, idx, ha, hc, hscan]

/-- Witness for C6 at a concrete stream whose data section never repeats
the address byte 129 after offset 7. -/
theorem c6_scan_exhaustion_fails_witness :
    decode_data noTerminatorFrame = Except.error DecodeError.indexError :=
  c6_scan_exhaustion_fails noTerminatorFrame 129 rfl (by decide)

/-- Claim C9.  For a stream whose data-section address byte reappears first
at index i ≥ 7, with the checksum trailer at index i+1 matching the 7-bit
sum over bytes [5:i+1], decoding the data section succeeds and recovers
exactly the payload bytes [7:i]. -/
theorem c9_data_payload_recovered (rx_stream : List Nat) (address command i : Nat)
    (ha : rx_stream[5]? = some address) (hc : rx_stream[6]? = some command)
    (hi7 : 7 ≤ i) (hterm : rx_stream[i]? = some address)
    (hfirst : ∀ j : Nat, j < i → 7 ≤ j → rx_stream[j]? ≠ some address)
    (hck : rx_stream[i + 1]? = some (calc_checksum (pySlice rx_stream 5 (i + 1)))) :
    decode_data rx_stream =
      Except.ok { address := address, command := command,
                  payload := pySlice rx_stream 7 i } := by
  obtain ⟨k, rfl⟩ : ∃ k, i = 7 + k := ⟨i - 7, by omega⟩
  have hscan : scan_for_addr address (rx_stream.drop 7) = some k := by
    apply scan_for_addr_eq_some
    · rw [List.getElem?_drop]
      exact hterm
    · intro m hm
      rw [List.getElem?_drop]
      exact hfirst (7 + m) (by omega) (by omega)
  simp [decode_data, idx, ha, hc, hscan, hck]

/-- Witness for C9 at the concrete valid frame: the first repeat of address
byte 129 at or after offset 7 is at index 9, and the recovered payload is
bytes [7:9] = [48, 49]. -/
theorem c9_data_payload_recovered_witness :
    decode_data validFrame =
      Except.ok { address := 129, command := 71, payload := [48, 49] } := by
  have h := c9_data_payload_recovered validFrame 129 71 9 rfl rfl (by decide)
    rfl (by decide) rfl
  simpa [pySlice, validFrame] using h

/-- Claim C10.  The is_ready flag is False at construction and no query or
set operation ever assigns it True, so every state reachable from a fresh
QuerySet through the core's own operations has is_ready = False. -/
theorem c10_is_ready_never_true :
    QuerySet.init.is_ready = false ∧
    ∀ ops : List Op, (runOps QuerySet.init ops).is_ready = false := by
  have key : ∀ (ops : List Op) (s : QuerySet),
      s.is_ready = false → (runOps s ops).is_ready = false := by
    intro ops
    induction ops with
    | nil => intro s h; simpa [runOps] using h
    | cons op rest ih =>
        intro s h
        cases op with
        | opQuery chan a =>
            exact ih _ (query_keeps_is_ready_off s chan a h)
        | opSet chan a =>
            exact ih _ (set_keeps_is_ready_off s chan a h)
  exact ⟨rfl, fun ops => key ops QuerySet.init rfl⟩

end Motionet
